import Mathlib

/-!
# Verification of the Hassarr request-resolution and HTTP-client core

Shallow embedding of the Hassarr Home Assistant integration
(`custom_components/hassarr` and the legacy `custom_components/overseerr`
client copies).  Python values relevant to the claims are modelled
explicitly: strings as Lean `String` over their character lists, numeric
scores as `Rat` (the code only compares and copies them), fallible code as
`Except`, and Python truthiness (`a or b`, `if not x`) by dedicated
helpers that treat `None`, `0`, `""` and `[]` as falsy, exactly as the
interpreter does.
-/

set_option autoImplicit false
set_option maxRecDepth 8000

namespace Hassarr

/-! ## Python-semantics helpers -/

/-- ASCII lower-casing of one character, the behaviour of Python's
`str.lower` on the ASCII inputs the integration deals with. -/
def lowerChar (c : Char) : Char :=
  if 'A' ≤ c ∧ c ≤ 'Z' then Char.ofNat (c.toNat + 32) else c

/-- Python `s.lower()` (ASCII fragment). -/
def pyLower (s : String) : String :=
  String.mk (s.data.map lowerChar)

/-- The whitespace characters removed by Python's `str.strip()`. -/
def isPySpace (c : Char) : Bool :=
  c = ' ' || c = '\t' || c = '\n' || c = '\r' || c = '\x0b' || c = '\x0c'

/-- Python `s.strip()`. -/
def pyStrip (s : String) : String :=
  String.mk (((s.data.dropWhile isPySpace).reverse.dropWhile isPySpace).reverse)

/-- Python slicing `s[:n]` (first `n` characters). -/
def pyTruncate (s : String) (n : Nat) : String :=
  String.mk (s.data.take n)

/-- Python `a or b` for two optional numbers, where `None` and `0` are
falsy: the left value is kept only when present and non-zero. -/
def pyOrNat (a b : Option Nat) : Option Nat :=
  match a with
  | some n => if n = 0 then b else some n
  | none => b

/-- Python `a or b` for two optional strings, where `None` and `""` are
falsy. -/
def pyOrStr (a b : Option String) : Option String :=
  match a with
  | some s => if s = "" then b else some s
  | none => b

/-- Python `a or b` for an optional score against a fallback score, where
a missing value and `0.0` are both falsy. -/
def pyOrScore (a : Option Rat) (b : Rat) : Rat :=
  match a with
  | some x => if x = 0 then b else x
  | none => b

/-- Python `s.startswith(pre)`. -/
def pyStartsWith (s pre : String) : Bool :=
  pre.data.isPrefixOf s.data

/-- Value of a run of ASCII digits, most significant first. -/
def digitsToNat (ds : List Char) : Nat :=
  ds.foldl (fun n c => n * 10 + (c.toNat - '0'.toNat)) 0

/-- Python `int(cs)` on a character list: optional sign followed by at
least one ASCII digit; anything else raises `ValueError` (`none`). -/
def pyIntOfChars (cs : List Char) : Option Int :=
  match cs with
  | '-' :: rest =>
    if rest ≠ [] ∧ rest.all Char.isDigit then some (-(digitsToNat rest : Int)) else none
  | '+' :: rest =>
    if rest ≠ [] ∧ rest.all Char.isDigit then some (digitsToNat rest : Int) else none
  | _ =>
    if cs ≠ [] ∧ cs.all Char.isDigit then some (digitsToNat cs : Int) else none

/-- Python `int(s)` on a string (which tolerates surrounding whitespace). -/
def pyIntOfString (s : String) : Option Int :=
  pyIntOfChars (pyStrip s).data

/-! ## HTTP client core: `_BaseClient._request` (`api_common.py`, lines 46-69)

One logical call is driven by an oracle `events : Nat → RespEvent` giving,
for each attempt number (1-based), either the HTTP response of that
attempt or a transport-level error (`asyncio.TimeoutError` / `ClientError`).
The JSON-vs-text decoding of a successful body (lines 60-63) does not
affect any claim and the successful body is returned as text. -/

/-- Outcome of a single HTTP attempt as seen by `_request`. -/
inductive RespEvent where
  | response (status : Nat) (text : String)
  | transportError (msg : String)
deriving Repr, DecidableEq

/-- The `ApiError` raised by `_request`: either an HTTP error carrying the
numeric status and the body slice put into the message, or a transport
failure after retries are exhausted. -/
inductive ApiErr where
  | httpError (status : Nat) (body : String)
  | transportFailure (msg : String)
deriving Repr, DecidableEq

/-- Result of one `_request` call. -/
inductive ReqResult where
  | ok (body : String)
  | err (e : ApiErr)
deriving Repr, DecidableEq

/-- `RETRY_STATUSES = {502, 503, 504}` (`api_common.py`, line 13). -/
def RETRY_STATUSES : List Nat := [502, 503, 504]

/-- Trace of one `_request` call: how many attempts ran, the sleeps
performed between attempts (entry `k` stands for `asyncio.sleep(0.5 * k)`,
recorded in order), and the final result. -/
structure ReqTrace where
  attempts : Nat
  sleepsHalfSec : List Nat
  result : ReqResult
deriving Repr, DecidableEq

/-- The retry loop of `_BaseClient._request`.  `attempt` is the value of
the Python `attempt` variable after the `attempt += 1` at the top of the
loop body; `sleeps` accumulates the sleeps performed so far. -/
def requestGo (events : Nat → RespEvent) (retry : Nat) (attempt : Nat)
    (sleeps : List Nat) : ReqTrace :=
  match events attempt with
  | .response status text =>
    if 400 ≤ status then
      if h : attempt ≤ retry ∧ status ∈ RETRY_STATUSES then
        requestGo events retry (attempt + 1) (sleeps ++ [attempt])
      else
        ⟨attempt, sleeps, .err (.httpError status (pyTruncate text 300))⟩
    else
      ⟨attempt, sleeps, .ok text⟩
  | .transportError msg =>
    if h : attempt ≤ retry then
      requestGo events retry (attempt + 1) (sleeps ++ [attempt])
    else
      ⟨attempt, sleeps, .err (.transportFailure msg)⟩
termination_by retry + 1 - attempt
decreasing_by
  · have h1 := h.1
    omega
  · omega

/-- `_BaseClient._request` with the default `retry=2`. -/
def request (events : Nat → RespEvent) : ReqTrace :=
  requestGo events 2 1 []

/-- An attempt outcome that triggers the retry path of `_request`: a
response whose status is in `RETRY_STATUSES`, or a transport error. -/
def isTransient : RespEvent → Bool
  | .response status _ => decide (status ∈ RETRY_STATUSES)
  | .transportError _ => true

theorem requestGo_retry_response (events : Nat → RespEvent) (retry attempt : Nat)
    (sleeps : List Nat) (status : Nat) (text : String)
    (hev : events attempt = .response status text)
    (h4 : 400 ≤ status) (hs : status ∈ RETRY_STATUSES) (hr : attempt ≤ retry) :
    requestGo events retry attempt sleeps =
      requestGo events retry (attempt + 1) (sleeps ++ [attempt]) := by
  conv_lhs => unfold requestGo
  rw [hev]
  simp [h4, hs, hr]

theorem requestGo_http_fail (events : Nat → RespEvent) (retry attempt : Nat)
    (sleeps : List Nat) (status : Nat) (text : String)
    (hev : events attempt = .response status text)
    (h4 : 400 ≤ status) (hno : ¬(attempt ≤ retry ∧ status ∈ RETRY_STATUSES)) :
    requestGo events retry attempt sleeps =
      ⟨attempt, sleeps, .err (.httpError status (pyTruncate text 300))⟩ := by
  unfold requestGo
  rw [hev]
  simp [h4, hno]

theorem requestGo_ok (events : Nat → RespEvent) (retry attempt : Nat)
    (sleeps : List Nat) (status : Nat) (text : String)
    (hev : events attempt = .response status text) (h4 : ¬ 400 ≤ status) :
    requestGo events retry attempt sleeps = ⟨attempt, sleeps, .ok text⟩ := by
  unfold requestGo
  rw [hev]
  simp [h4]

theorem requestGo_retry_transport (events : Nat → RespEvent) (retry attempt : Nat)
    (sleeps : List Nat) (msg : String)
    (hev : events attempt = .transportError msg) (hr : attempt ≤ retry) :
    requestGo events retry attempt sleeps =
      requestGo events retry (attempt + 1) (sleeps ++ [attempt]) := by
  conv_lhs => unfold requestGo
  rw [hev]
  simp [hr]

theorem requestGo_transport_fail (events : Nat → RespEvent) (retry attempt : Nat)
    (sleeps : List Nat) (msg : String)
    (hev : events attempt = .transportError msg) (hr : ¬ attempt ≤ retry) :
    requestGo events retry attempt sleeps =
      ⟨attempt, sleeps, .err (.transportFailure msg)⟩ := by
  unfold requestGo
  rw [hev]
  simp [hr]

/-- Any member of `RETRY_STATUSES` is an error status. -/
theorem retry_status_ge_400 {status : Nat} (hs : status ∈ RETRY_STATUSES) :
    400 ≤ status := by
  simp [RETRY_STATUSES] at hs
  rcases hs with h | h | h <;> omega

/-- Shape of every `_request` trace: the loop starts at the given attempt,
performs at most `retry + 1` attempts, and sleeps `0.5 * k` seconds
exactly after each non-final attempt `k`. -/
theorem requestGo_bounds (events : Nat → RespEvent) (retry : Nat) :
    ∀ (k attempt : Nat) (sleeps : List Nat), retry + 1 - attempt < k →
      attempt ≤ retry + 1 →
      attempt ≤ (requestGo events retry attempt sleeps).attempts ∧
      (requestGo events retry attempt sleeps).attempts ≤ retry + 1 ∧
      (requestGo events retry attempt sleeps).sleepsHalfSec =
        sleeps ++ List.range' attempt
          ((requestGo events retry attempt sleeps).attempts - attempt) := by
  intro k
  induction k with
  | zero => omega
  | succ k ih =>
    intro attempt sleeps hk ha
    have hstep :
        requestGo events retry attempt sleeps =
          requestGo events retry (attempt + 1) (sleeps ++ [attempt]) →
        attempt ≤ retry →
        attempt ≤ (requestGo events retry attempt sleeps).attempts ∧
        (requestGo events retry attempt sleeps).attempts ≤ retry + 1 ∧
        (requestGo events retry attempt sleeps).sleepsHalfSec =
          sleeps ++ List.range' attempt
            ((requestGo events retry attempt sleeps).attempts - attempt) := by
      intro hT hr
      rw [hT]
      obtain ⟨h1, h2, h3⟩ := ih (attempt + 1) (sleeps ++ [attempt]) (by omega) (by omega)
      refine ⟨by omega, h2, ?_⟩
      rw [h3]
      have hn : (requestGo events retry (attempt + 1) (sleeps ++ [attempt])).attempts - attempt
          = ((requestGo events retry (attempt + 1) (sleeps ++ [attempt])).attempts
            - (attempt + 1)) + 1 := by omega
      rw [hn, List.range'_succ, List.append_assoc]
      rfl
    cases hev : events attempt with
    | response status text =>
      by_cases h4 : 400 ≤ status
      · by_cases hr : attempt ≤ retry ∧ status ∈ RETRY_STATUSES
        · exact hstep (requestGo_retry_response events retry attempt sleeps status text
            hev h4 hr.2 hr.1) hr.1
        · rw [requestGo_http_fail events retry attempt sleeps status text hev h4 hr]
          simp [ha]
      · rw [requestGo_ok events retry attempt sleeps status text hev h4]
        simp [ha]
    | transportError msg =>
      by_cases hr : attempt ≤ retry
      · exact hstep (requestGo_retry_transport events retry attempt sleeps msg hev hr) hr
      · rw [requestGo_transport_fail events retry attempt sleeps msg hev hr]
        simp [ha]

/-- A transient attempt outcome with `attempt ≤ retry` left makes the loop
sleep and go round again. -/
theorem requestGo_retry_of_transient (events : Nat → RespEvent) (retry attempt : Nat)
    (sleeps : List Nat) (e : RespEvent)
    (hev : events attempt = e) (ht : isTransient e = true) (hr : attempt ≤ retry) :
    requestGo events retry attempt sleeps =
      requestGo events retry (attempt + 1) (sleeps ++ [attempt]) := by
  cases e with
  | response status text =>
    simp only [isTransient, decide_eq_true_eq] at ht
    exact requestGo_retry_response events retry attempt sleeps status text hev
      (retry_status_ge_400 ht) ht hr
  | transportError msg =>
    exact requestGo_retry_transport events retry attempt sleeps msg hev hr

/-- C2 (`_BaseClient._request`, `api_common.py` lines 46-69, `retry=2`):
every call performs between 1 and 3 attempts and sleeps `0.5 * k` seconds
exactly after each non-final attempt `k`; a transient outcome (status in
`{502, 503, 504}` or a transport error) on the first two attempts followed
by a 200 succeeds after exactly 3 attempts with sleeps `0.5s` and `1.0s`;
a server that always answers 503 fails after exactly 3 attempts with an
error carrying status 503 and the truncated body. -/
theorem claim2_retry_policy :
    (∀ events : Nat → RespEvent,
        1 ≤ (request events).attempts ∧ (request events).attempts ≤ 3 ∧
        (request events).sleepsHalfSec = List.range' 1 ((request events).attempts - 1)) ∧
    (∀ (e1 e2 : RespEvent) (body : String), isTransient e1 = true → isTransient e2 = true →
        request (fun n => if n = 1 then e1 else if n = 2 then e2 else .response 200 body) =
          ⟨3, [1, 2], .ok body⟩) ∧
    (∀ text : String, request (fun _ => .response 503 text) =
        ⟨3, [1, 2], .err (.httpError 503 (pyTruncate text 300))⟩) := by
  refine ⟨?_, ?_, ?_⟩
  · intro events
    obtain ⟨h1, h2, h3⟩ := requestGo_bounds events 2 3 1 [] (by omega) (by omega)
    exact ⟨h1, h2, by simpa using h3⟩
  · intro e1 e2 body h1 h2
    calc request (fun n => if n = 1 then e1 else if n = 2 then e2 else .response 200 body)
        = requestGo (fun n => if n = 1 then e1 else if n = 2 then e2 else .response 200 body)
            2 1 [] := rfl
      _ = requestGo (fun n => if n = 1 then e1 else if n = 2 then e2 else .response 200 body)
            2 2 ([] ++ [1]) :=
          requestGo_retry_of_transient _ 2 1 [] e1 rfl h1 (by omega)
      _ = requestGo (fun n => if n = 1 then e1 else if n = 2 then e2 else .response 200 body)
            2 3 (([] ++ [1]) ++ [2]) :=
          requestGo_retry_of_transient _ 2 2 _ e2 rfl h2 (by omega)
      _ = ⟨3, ([] ++ [1]) ++ [2], .ok body⟩ :=
          requestGo_ok _ 2 3 _ 200 body rfl (by omega)
      _ = ⟨3, [1, 2], .ok body⟩ := by norm_num
  · intro text
    have hmem : (503 : Nat) ∈ RETRY_STATUSES := by simp [RETRY_STATUSES]
    calc request (fun _ => .response 503 text)
        = requestGo (fun _ => .response 503 text) 2 1 [] := rfl
      _ = requestGo (fun _ => .response 503 text) 2 2 ([] ++ [1]) :=
          requestGo_retry_response _ 2 1 [] 503 text rfl (by omega) hmem (by omega)
      _ = requestGo (fun _ => .response 503 text) 2 3 (([] ++ [1]) ++ [2]) :=
          requestGo_retry_response _ 2 2 _ 503 text rfl (by omega) hmem (by omega)
      _ = ⟨3, ([] ++ [1]) ++ [2], .err (.httpError 503 (pyTruncate text 300))⟩ :=
          requestGo_http_fail _ 2 3 _ 503 text rfl (by omega) (by omega)
      _ = ⟨3, [1, 2], .err (.httpError 503 (pyTruncate text 300))⟩ := by norm_num

/-- Witness for C2: a 503, then a transport timeout, then a 200 succeeds
after exactly three attempts with sleeps `0.5s` and `1.0s`. -/
theorem claim2_retry_policy_witness :
    request (fun n => if n = 1 then .response 503 "bad gateway"
        else if n = 2 then .transportError "timeout" else .response 200 "fine") =
      ⟨3, [1, 2], .ok "fine"⟩ :=
  claim2_retry_policy.2.1 (.response 503 "bad gateway") (.transportError "timeout") "fine"
    (by decide) (by decide)

/-! ## The legacy executor `OverseerrClient._request`
(`custom_components/overseerr/api_overseerr.py`, lines 23-32)

This copy of the client performs exactly one attempt: any status `>= 400`
raises `OverseerrError` **with the full, untruncated body** in the message,
and transport errors propagate unwrapped. -/

/-- Result of one call through the legacy `OverseerrClient._request`. -/
inductive OvsrLegacyResult where
  | ok (body : String)
  | httpError (status : Nat) (body : String)
  | transportRaise (msg : String)
deriving Repr, DecidableEq

/-- The legacy single-attempt executor. -/
def ovsrLegacyRequest : RespEvent → OvsrLegacyResult
  | .response status text => if 400 ≤ status then .httpError status text else .ok text
  | .transportError msg => .transportRaise msg

/-- Convenience: length of a Python truncation. -/
theorem pyTruncate_length_le (s : String) (n : Nat) : (pyTruncate s n).length ≤ n := by
  have h : (pyTruncate s n).length = (s.data.take n).length := rfl
  rw [h, List.length_take]
  omega

/-- C7, amended (`_BaseClient._request` lines 52-59 and the legacy
`OverseerrClient._request` lines 23-32): in the retrying executor a
response with status `>= 400` outside `{502, 503, 504}` fails on the first
attempt, with no sleep, carrying the status and the body truncated to at
most 300 characters; the legacy executor also fails immediately on every
status `>= 400` (it never retries anything), but it carries the full,
untruncated body. -/
theorem claim7_immediate_failure :
    (∀ (events : Nat → RespEvent) (status : Nat) (text : String),
        events 1 = .response status text → 400 ≤ status → status ∉ RETRY_STATUSES →
        request events = ⟨1, [], .err (.httpError status (pyTruncate text 300))⟩ ∧
        (pyTruncate text 300).length ≤ 300) ∧
    (∀ (status : Nat) (text : String), 400 ≤ status →
        ovsrLegacyRequest (.response status text) = .httpError status text) := by
  constructor
  · intro events status text hev h4 hs
    refine ⟨?_, pyTruncate_length_le text 300⟩
    exact requestGo_http_fail events 2 1 [] status text hev h4 (by tauto)
  · intro status text h4
    simp [ovsrLegacyRequest, h4]

/-- Witness for C7: a 404 with body `"missing"` fails at once through the
retrying executor, and through the legacy executor. -/
theorem claim7_immediate_failure_witness :
    request (fun _ => .response 404 "missing") =
      ⟨1, [], .err (.httpError 404 (pyTruncate "missing" 300))⟩ ∧
    ovsrLegacyRequest (.response 404 "missing") = .httpError 404 "missing" :=
  ⟨(claim7_immediate_failure.1 (fun _ => .response 404 "missing") 404 "missing" rfl
      (by omega) (by decide)).1,
    claim7_immediate_failure.2 404 "missing" (by omega)⟩

/-- Counterexample for C7 as stated: through the legacy
`OverseerrClient._request`, a 404 whose body has 301 characters raises an
error carrying the whole 301-character body — not a body truncated to at
most 300 characters. -/
theorem claim7_counterexample :
    ovsrLegacyRequest (.response 404 (String.mk (List.replicate 301 'a'))) =
      .httpError 404 (String.mk (List.replicate 301 'a')) ∧
    (String.mk (List.replicate 301 'a')).length = 301 ∧
    ¬ (String.mk (List.replicate 301 'a')).length ≤ 300 := by
  exact ⟨rfl, rfl, by decide⟩

/-! ## `OverseerrClient._best_match` (`api_common.py` lines 113-123, and the
identical copy in `custom_components/overseerr/api_overseerr.py` lines 73-82)

A search candidate record is modelled by the five fields `_best_match`
reads.  Scores are `Rat`: the code only compares them with `float(...)`,
so ordered-field comparisons are all that matters. -/

/-- One Overseerr search result as read by `_best_match`. -/
structure Candidate where
  mediaType : Option String
  media_type : Option String
  popularity : Option Rat
  voteAverage : Option Rat
  vote_average : Option Rat
deriving Repr, DecidableEq

/-- The `score` closure (lines 119-121):
`float(r.get("popularity") or r.get("voteAverage") or r.get("vote_average") or 0.0)`. -/
def score (r : Candidate) : Rat :=
  pyOrScore r.popularity (pyOrScore r.voteAverage (pyOrScore r.vote_average 0))

/-- `r.get("mediaType") or r.get("media_type")` (line 116): the first field
is kept only when present and non-empty. -/
def reportedType (r : Candidate) : Option String :=
  match r.mediaType with
  | some s => if s = "" then r.media_type else some s
  | none => r.media_type

/-- The filter predicate of line 116: the reported type equals the
(lower-cased) requested kind. -/
def typedMatches (r : Candidate) (mt : String) : Bool :=
  decide (reportedType r = some mt)

/-- One step of CPython's `max(..., key=f)`: the running best is replaced
only when the new element's key is strictly greater. -/
def pyMaxStep {α : Type} (f : α → Rat) (u a : α) : α :=
  if f u < f a then a else u

/-- `max(l, key=f, default=None)`: `none` on the empty list, otherwise the
left fold of `pyMaxStep` — which returns the first element attaining the
maximal key, exactly CPython's tie-breaking. -/
def pyMaxBy {α : Type} (f : α → Rat) : List α → Option α
  | [] => none
  | x :: xs => some (xs.foldl (pyMaxStep f) x)

/-- `pool = typed or results` (line 117) under `typed = [r for r in results
if ...]`: the full candidate list when the typed filter is empty. -/
def bmPool (results : List Candidate) (media_type : String) : List Candidate :=
  let typed := results.filter (fun r => typedMatches r (pyLower media_type))
  if typed.isEmpty then results else typed

/-- `OverseerrClient._best_match`. -/
def best_match (results : List Candidate) (media_type : String) : Option Candidate :=
  pyMaxBy score (bmPool results media_type)

/-- `x` is a maximum of `f` over `l` (boolean form). -/
def maxIn {α : Type} (f : α → Rat) (l : List α) (x : α) : Bool :=
  l.all (fun y => decide (f y ≤ f x))

theorem maxIn_cons {α : Type} (f : α → Rat) (a : α) (l : List α) (x : α) :
    maxIn f (a :: l) x = (decide (f a ≤ f x) && maxIn f l x) := by
  simp [maxIn]

theorem bool_not_eq_true {b : Bool} (h : b = false) : ¬ b = true := by
  simp [h]

theorem find?_congr_on {α : Type} (p q : α → Bool) (l : List α)
    (h : ∀ x ∈ l, p x = q x) : l.find? p = l.find? q := by
  induction l with
  | nil => rfl
  | cons a t ih =>
    have ha := h a (List.mem_cons_self a t)
    cases hq : q a with
    | true =>
      rw [List.find?_cons_of_pos _ (by rw [ha, hq]), List.find?_cons_of_pos _ hq]
    | false =>
      rw [List.find?_cons_of_neg _ (bool_not_eq_true (ha.trans hq)),
        List.find?_cons_of_neg _ (bool_not_eq_true hq)]
      exact ih (fun x hx => h x (List.mem_cons_of_mem a hx))

/-- The Python `max` fold returns exactly the first element of the list
whose key is greater or equal to every key in the list. -/
theorem pyMaxBy_go_eq_find {α : Type} (f : α → Rat) :
    ∀ (xs : List α) (b : α),
      (b :: xs).find? (maxIn f (b :: xs)) = some (xs.foldl (pyMaxStep f) b) := by
  intro xs
  induction xs with
  | nil =>
    intro b
    rw [List.find?_cons_of_pos _ (by simp [maxIn])]
    rfl
  | cons a t ih =>
    intro b
    rw [List.foldl_cons]
    by_cases hba : f b < f a
    · have hstep : pyMaxStep f b a = a := by simp [pyMaxStep, hba]
      have hPb : maxIn f (b :: a :: t) b = false := by
        simp only [maxIn_cons, Bool.and_eq_false_iff]
        refine Or.inr (Or.inl ?_)
        simpa using not_le.mpr hba
      rw [List.find?_cons_of_neg _ (bool_not_eq_true hPb), hstep]
      have hcongr : ∀ x ∈ a :: t,
          maxIn f (b :: a :: t) x = maxIn f (a :: t) x := by
        intro x _
        rw [maxIn_cons]
        cases hax : maxIn f (a :: t) x with
        | false => simp
        | true =>
          have hax' : f a ≤ f x := by
            simp only [maxIn, List.all_eq_true, decide_eq_true_eq] at hax
            exact hax a (List.mem_cons_self a t)
          simp [le_trans hba.le hax']
      rw [find?_congr_on _ _ _ hcongr, ih a]
    · have hab : f a ≤ f b := not_lt.mp hba
      have hstep : pyMaxStep f b a = b := by simp [pyMaxStep, hba]
      rw [hstep]
      have hPP : ∀ x, maxIn f (b :: a :: t) x = maxIn f (b :: t) x := by
        intro x
        rw [maxIn_cons, maxIn_cons, maxIn_cons]
        by_cases hfb : f b ≤ f x
        · simp [hfb, le_trans hab hfb]
        · simp [hfb]
      cases hPb : maxIn f (b :: t) b with
      | true =>
        rw [List.find?_cons_of_pos _ ((hPP b).trans hPb)]
        have hb := ih b
        rw [List.find?_cons_of_pos _ hPb] at hb
        exact hb
      | false =>
        have hPa : maxIn f (b :: t) a = false := by
          cases hPa : maxIn f (b :: t) a with
          | false => rfl
          | true =>
            exfalso
            simp only [maxIn, List.all_eq_true, decide_eq_true_eq] at hPa
            have hPb' : maxIn f (b :: t) b = true := by
              simp only [maxIn, List.all_eq_true, decide_eq_true_eq]
              intro y hy
              exact le_trans (hPa y hy) hab
            rw [hPb] at hPb'
            exact Bool.false_ne_true hPb'
        rw [List.find?_cons_of_neg _ (bool_not_eq_true ((hPP b).trans hPb)),
          List.find?_cons_of_neg _ (bool_not_eq_true ((hPP a).trans hPa))]
        have hb := ih b
        rw [List.find?_cons_of_neg _ (bool_not_eq_true hPb)] at hb
        rw [← hb]
        exact find?_congr_on _ _ _ (fun x _ => hPP x)

/-- `pyMaxBy` characterised without the fold: the first maximum in list
order, `none` exactly on the empty list. -/
theorem pyMaxBy_eq_find {α : Type} (f : α → Rat) (l : List α) :
    pyMaxBy f l = l.find? (maxIn f l) := by
  cases l with
  | nil => rfl
  | cons b xs => exact (pyMaxBy_go_eq_find f xs b).symm

/-- C3 (`OverseerrClient._best_match`): the match is `none` exactly when
the candidate list is empty; any match comes from the candidate list; when
a candidate of the requested kind exists the match is of that kind; when
no candidate is of the requested kind the pool falls back to the full
list; and the match is the first element of the pool whose score
(popularity, falling back to vote average, else 0) is maximal. -/
theorem claim3_best_match (results : List Candidate) (media_type : String) :
    (best_match results media_type = none ↔ results = []) ∧
    (∀ r, best_match results media_type = some r → r ∈ results) ∧
    ((∃ c ∈ results, typedMatches c (pyLower media_type) = true) →
      ∀ r, best_match results media_type = some r →
        typedMatches r (pyLower media_type) = true) ∧
    ((∀ c ∈ results, typedMatches c (pyLower media_type) = false) →
      bmPool results media_type = results) ∧
    best_match results media_type =
      (bmPool results media_type).find? (maxIn score (bmPool results media_type)) := by
  have hpool_sub : ∀ r, r ∈ bmPool results media_type → r ∈ results := by
    intro r hr
    simp only [bmPool] at hr
    by_cases he : (results.filter (fun r => typedMatches r (pyLower media_type))).isEmpty
    · rw [if_pos he] at hr
      exact hr
    · rw [if_neg he] at hr
      exact (List.mem_filter.mp hr).1
  have hpool_nil : bmPool results media_type = [] ↔ results = [] := by
    simp only [bmPool]
    by_cases he : (results.filter (fun r => typedMatches r (pyLower media_type))).isEmpty
    · rw [if_pos he]
    · rw [if_neg he]
      constructor
      · intro h
        rw [h] at he
        exact absurd rfl he
      · intro h
        rw [h] at he
        simp at he
  refine ⟨?_, ?_, ?_, ?_, pyMaxBy_eq_find score (bmPool results media_type)⟩
  · rw [show best_match results media_type = pyMaxBy score (bmPool results media_type) from rfl]
    cases hp : bmPool results media_type with
    | nil => simpa [pyMaxBy] using hpool_nil.mp hp
    | cons b xs =>
      simp only [pyMaxBy]
      constructor
      · intro h
        exact absurd h (by simp)
      · intro h
        have hnil := hpool_nil.mpr h
        rw [hp] at hnil
        exact absurd hnil (by simp)
  · intro r hr
    rw [show best_match results media_type = pyMaxBy score (bmPool results media_type) from rfl,
      pyMaxBy_eq_find] at hr
    exact hpool_sub r (List.mem_of_find?_eq_some hr)
  · rintro ⟨c, hc, hct⟩ r hr
    have htne : results.filter (fun r => typedMatches r (pyLower media_type)) ≠ [] := by
      intro h
      have : c ∈ results.filter (fun r => typedMatches r (pyLower media_type)) :=
        List.mem_filter.mpr ⟨hc, hct⟩
      rw [h] at this
      exact absurd this (List.not_mem_nil c)
    have hpool : bmPool results media_type =
        results.filter (fun r => typedMatches r (pyLower media_type)) := by
      simp only [bmPool]
      rw [if_neg (by simpa [List.isEmpty_iff] using htne)]
    rw [show best_match results media_type = pyMaxBy score (bmPool results media_type) from rfl,
      pyMaxBy_eq_find, hpool] at hr
    exact (List.mem_filter.mp (List.mem_of_find?_eq_some hr)).2
  · intro hall
    simp only [bmPool]
    rw [if_pos]
    rw [List.isEmpty_iff, List.filter_eq_nil_iff]
    intro c hc
    simp [hall c hc]

/-- Witness for C3: with a movie and a TV candidate present, requesting
`"tv"` yields the TV-typed candidate. -/
theorem claim3_best_match_witness :
    typedMatches ⟨some "tv", none, some 3, none, none⟩ (pyLower "tv") = true :=
  (claim3_best_match
      [⟨some "movie", none, some 5, none, none⟩, ⟨some "tv", none, some 3, none, none⟩]
      "tv").2.2.1
    ⟨⟨some "tv", none, some 3, none, none⟩, by decide, by decide⟩
    ⟨some "tv", none, some 3, none, none⟩ (by decide)

/-! ## Overseerr destination resolution (`__init__.py`, `_svc_request`
lines 152-195)

The `or`-chains that produce `server_id` and `profile_id` are embedded
over a snapshot of every source they consult: the service-call override
fields, the runtime `ovsr_selected` dict, and the saved `entry.options` /
`entry.data` values. -/

/-- All the configuration sources read when resolving an Overseerr
destination. -/
structure OvsrSnapshot where
  overrideServerId : Option Nat
  overrideProfileId : Option Nat
  selRadarrServerId : Option Nat
  selSonarrServerId : Option Nat
  selMovieProfileId : Option Nat
  selTvProfileId : Option Nat
  optServerIdRadarr : Option Nat
  dataServerIdRadarr : Option Nat
  optServerIdSonarr : Option Nat
  dataServerIdSonarr : Option Nat
  optServerIdLegacy : Option Nat
  dataServerIdLegacy : Option Nat
  optProfileIdMovie : Option Nat
  dataProfileIdMovie : Option Nat
  optProfileIdTv : Option Nat
  dataProfileIdTv : Option Nat
deriving Repr, DecidableEq

/-- `server_id` resolution: lines 157-165 (movie) and 172-180 (tv). -/
def resolvedServerId (c : OvsrSnapshot) (mt : String) : Option Nat :=
  if mt = "movie" then
    pyOrNat c.overrideServerId (pyOrNat c.selRadarrServerId (pyOrNat c.optServerIdRadarr
      (pyOrNat c.dataServerIdRadarr (pyOrNat c.optServerIdLegacy c.dataServerIdLegacy))))
  else
    pyOrNat c.overrideServerId (pyOrNat c.selSonarrServerId (pyOrNat c.optServerIdSonarr
      (pyOrNat c.dataServerIdSonarr (pyOrNat c.optServerIdLegacy c.dataServerIdLegacy))))

/-- `profile_id` resolution: lines 166-171 (movie) and 181-186 (tv). -/
def resolvedProfileId (c : OvsrSnapshot) (mt : String) : Option Nat :=
  if mt = "movie" then
    pyOrNat c.overrideProfileId (pyOrNat c.selMovieProfileId
      (pyOrNat c.optProfileIdMovie c.dataProfileIdMovie))
  else
    pyOrNat c.overrideProfileId (pyOrNat c.selTvProfileId
      (pyOrNat c.optProfileIdTv c.dataProfileIdTv))

/-- Specification-side resolver: the first present, non-zero value of an
ordered list of sources. -/
def firstTruthyNat : List (Option Nat) → Option Nat
  | [] => none
  | v :: rest =>
    match v with
    | some n => if n = 0 then firstTruthyNat rest else some n
    | none => firstTruthyNat rest

theorem firstTruthyNat_nil : firstTruthyNat [] = none := rfl

theorem firstTruthyNat_cons (v : Option Nat) (rest : List (Option Nat)) :
    firstTruthyNat (v :: rest) = pyOrNat v (firstTruthyNat rest) := by
  cases v with
  | none => rfl
  | some n => by_cases h : n = 0 <;> simp [firstTruthyNat, pyOrNat, h]

theorem pyOrNat_none_right {f : Option Nat} (h : f ≠ some 0) :
    pyOrNat f none = f := by
  cases f with
  | none => rfl
  | some n =>
    have hn : n ≠ 0 := fun h0 => h (by rw [h0])
    simp [pyOrNat, hn]

/-- C4 (`_svc_request`, Overseerr branch): a supplied (positive) override
always wins, whatever the other sources hold; without an override the
resolution is the first present, non-zero source in the order runtime
selection, saved option, saved data, then (for servers) the legacy
single-server option and data fields.  The hypotheses on the final data
fields only rule out a stored literal `0`, which Python's `or` would pass
through as a last resort. -/
theorem claim4_overseerr_precedence (c : OvsrSnapshot) (mt : String) :
    (c.dataServerIdLegacy ≠ some 0 →
      resolvedServerId c mt = firstTruthyNat
        (if mt = "movie" then
          [c.overrideServerId, c.selRadarrServerId, c.optServerIdRadarr,
            c.dataServerIdRadarr, c.optServerIdLegacy, c.dataServerIdLegacy]
         else
          [c.overrideServerId, c.selSonarrServerId, c.optServerIdSonarr,
            c.dataServerIdSonarr, c.optServerIdLegacy, c.dataServerIdLegacy])) ∧
    ((if mt = "movie" then c.dataProfileIdMovie else c.dataProfileIdTv) ≠ some 0 →
      resolvedProfileId c mt = firstTruthyNat
        (if mt = "movie" then
          [c.overrideProfileId, c.selMovieProfileId, c.optProfileIdMovie,
            c.dataProfileIdMovie]
         else
          [c.overrideProfileId, c.selTvProfileId, c.optProfileIdTv, c.dataProfileIdTv])) ∧
    (∀ v, c.overrideServerId = some v → 0 < v → resolvedServerId c mt = some v) ∧
    (∀ v, c.overrideProfileId = some v → 0 < v → resolvedProfileId c mt = some v) := by
  refine ⟨?_, ?_, ?_, ?_⟩
  · intro hz
    by_cases hmt : mt = "movie" <;>
      simp [resolvedServerId, hmt, firstTruthyNat_cons, firstTruthyNat_nil,
        pyOrNat_none_right hz]
  · intro hz
    by_cases hmt : mt = "movie"
    · rw [if_pos hmt] at hz
      simp [resolvedProfileId, hmt, firstTruthyNat_cons, firstTruthyNat_nil,
        pyOrNat_none_right hz]
    · rw [if_neg hmt] at hz
      simp [resolvedProfileId, hmt, firstTruthyNat_cons, firstTruthyNat_nil,
        pyOrNat_none_right hz]
  · intro v hv hpos
    have hne : v ≠ 0 := Nat.pos_iff_ne_zero.mp hpos
    by_cases hmt : mt = "movie" <;> simp [resolvedServerId, hmt, hv, pyOrNat, hne]
  · intro v hv hpos
    have hne : v ≠ 0 := Nat.pos_iff_ne_zero.mp hpos
    by_cases hmt : mt = "movie" <;> simp [resolvedProfileId, hmt, hv, pyOrNat, hne]

/-- Witness for C4: with every saved and runtime source populated, the
call overrides (server 7, profile 9) win for a movie request. -/
theorem claim4_overseerr_precedence_witness :
    resolvedServerId
        ⟨some 7, some 9, some 1, some 1, some 2, some 2, some 3, some 3,
          some 3, some 3, some 4, some 4, some 5, some 5, some 6, some 6⟩ "movie" = some 7 ∧
    resolvedProfileId
        ⟨some 7, some 9, some 1, some 1, some 2, some 2, some 3, some 3,
          some 3, some 3, some 4, some 4, some 5, some 5, some 6, some 6⟩ "movie" = some 9 :=
  ⟨(claim4_overseerr_precedence _ "movie").2.2.1 7 rfl (by omega),
    (claim4_overseerr_precedence _ "movie").2.2.2 9 rfl (by omega)⟩

/-! ## Arr destination resolution and dispatch (`__init__.py`,
`_svc_request` lines 206-232, `_ensure_tmdb_id_for_movie` lines 411-417,
`_ensure_tmdb_id_for_series` lines 420-429)

The Radarr/Sonarr lookup over HTTP is abstracted to the list of `tmdbId`
fields of the items it would return; the `add_movie` / `add_series` call
is abstracted to an oracle producing the upstream response.  The trace
counts how many lookup requests and how many add requests were issued. -/

/-- Outcome of one Arr-backend service call. -/
inductive SvcOutcome where
  | ok (resp : String)
  | fail (msg : String)
deriving Repr, DecidableEq

/-- Result of the tmdb-id resolution step. -/
inductive IdResult where
  | ok (tmdb : Int)
  | fail (msg : String)
deriving Repr, DecidableEq

/-- Trace of the Arr branch of `_svc_request`. -/
structure ArrTrace where
  lookupCalls : Nat
  addCalls : Nat
  outcome : SvcOutcome
deriving Repr, DecidableEq

/-- The call-time inputs the Arr branch reads. -/
structure ArrCall where
  query : String
  rootOverride : Option String
  profileOverride : Option Nat
deriving Repr, DecidableEq

/-- Characters of `s` after the first `:` — `s.split(":", 1)[1]`. -/
def afterFirstColon (s : String) : String :=
  String.mk ((s.data.dropWhile (fun c => c ≠ ':')).drop 1)

/-- `_ensure_tmdb_id_for_series`: a `tmdb:<id>` query is parsed directly
(no lookup call); otherwise one lookup runs and the first item must carry
a truthy `tmdbId`.  The first component counts lookup HTTP calls. -/
def ensureTmdbIdForSeries (lookupItems : List (Option Int)) (query : String) :
    Nat × IdResult :=
  if pyStartsWith (pyLower query) "tmdb:" then
    (0, match pyIntOfString (afterFirstColon query) with
        | some n => .ok n
        | none => .fail "ValueError")
  else
    (1, match lookupItems with
        | [] => .fail ("No Sonarr lookup results for '" ++ query ++ "'")
        | item :: _ =>
          match item with
          | some t =>
            if t = 0 then
              .fail "No TMDB id in Sonarr lookup result. Provide title that resolves or use 'tmdb:<id>'."
            else .ok t
          | none =>
            .fail "No TMDB id in Sonarr lookup result. Provide title that resolves or use 'tmdb:<id>'.")

/-- `_ensure_tmdb_id_for_movie`: like the series version, but the first
item's `tmdbId` is passed to `int()` without a truthiness check, so a
missing field raises `TypeError` and `0` is accepted. -/
def ensureTmdbIdForMovie (lookupItems : List (Option Int)) (query : String) :
    Nat × IdResult :=
  if pyStartsWith (pyLower query) "tmdb:" then
    (0, match pyIntOfString (afterFirstColon query) with
        | some n => .ok n
        | none => .fail "ValueError")
  else
    (1, match lookupItems with
        | [] => .fail ("No Radarr lookup results for '" ++ query ++ "'")
        | item :: _ =>
          match item with
          | some t => .ok t
          | none => .fail "TypeError")

/-- The not-configured message of the Sonarr branch (line 226). -/
def sonarrNotConfiguredMsg : String :=
  "Sonarr root and quality profile must be selected via entities or provided in call"

/-- The not-configured message of the Radarr branch (line 214). -/
def radarrNotConfiguredMsg : String :=
  "Radarr root and quality profile must be selected via entities or provided in call"

/-- The tv (Sonarr) arm of `_svc_request`'s Arr branch, lines 220-232:
tmdb resolution first, then `root = override or selected`,
`qprof = override or selected`, the `if not root or not qprof` guard, and
only then the `add_series` HTTP call. -/
def svcArrSeries (lookupItems : List (Option Int)) (selRoot : Option String)
    (selProfile : Option Nat) (call : ArrCall)
    (addSeries : Int → String → Nat → String) : ArrTrace :=
  match ensureTmdbIdForSeries lookupItems call.query with
  | (lk, .fail e) => ⟨lk, 0, .fail e⟩
  | (lk, .ok tmdb) =>
    let root := pyOrStr call.rootOverride selRoot
    let qprof := pyOrNat call.profileOverride selProfile
    if root.getD "" = "" ∨ qprof.getD 0 = 0 then
      ⟨lk, 0, .fail sonarrNotConfiguredMsg⟩
    else
      ⟨lk, 1, .ok (addSeries tmdb (root.getD "") (qprof.getD 0))⟩

/-- The movie (Radarr) arm, lines 208-219. -/
def svcArrMovie (lookupItems : List (Option Int)) (selRoot : Option String)
    (selProfile : Option Nat) (call : ArrCall)
    (addMovie : Int → String → Nat → String) : ArrTrace :=
  match ensureTmdbIdForMovie lookupItems call.query with
  | (lk, .fail e) => ⟨lk, 0, .fail e⟩
  | (lk, .ok tmdb) =>
    let root := pyOrStr call.rootOverride selRoot
    let qprof := pyOrNat call.profileOverride selProfile
    if root.getD "" = "" ∨ qprof.getD 0 = 0 then
      ⟨lk, 0, .fail radarrNotConfiguredMsg⟩
    else
      ⟨lk, 1, .ok (addMovie tmdb (root.getD "") (qprof.getD 0))⟩

/-- C5, amended (`_svc_request`, Arr branch): when override-then-selection
leaves the root folder or the quality profile unset, the add (creation)
HTTP call is never attempted and the service call fails; the failure is
the not-configured error whenever the preceding tmdb-id resolution
succeeded, but when that earlier step failed (for example an empty
lookup), its error — not the not-configured one — is raised, the lookup
HTTP call having already been attempted. -/
theorem claim5_arr_not_configured (lookupItems : List (Option Int))
    (selRoot : Option String) (selProfile : Option Nat) (call : ArrCall)
    (addSeries addMovie : Int → String → Nat → String)
    (hunset : (pyOrStr call.rootOverride selRoot).getD "" = "" ∨
      (pyOrNat call.profileOverride selProfile).getD 0 = 0) :
    ((svcArrSeries lookupItems selRoot selProfile call addSeries).addCalls = 0 ∧
      ∃ e, (svcArrSeries lookupItems selRoot selProfile call addSeries).outcome = .fail e) ∧
    ((svcArrMovie lookupItems selRoot selProfile call addMovie).addCalls = 0 ∧
      ∃ e, (svcArrMovie lookupItems selRoot selProfile call addMovie).outcome = .fail e) ∧
    (∀ lk tmdb, ensureTmdbIdForSeries lookupItems call.query = (lk, .ok tmdb) →
      (svcArrSeries lookupItems selRoot selProfile call addSeries).outcome =
        .fail sonarrNotConfiguredMsg) ∧
    (∀ lk tmdb, ensureTmdbIdForMovie lookupItems call.query = (lk, .ok tmdb) →
      (svcArrMovie lookupItems selRoot selProfile call addMovie).outcome =
        .fail radarrNotConfiguredMsg) := by
  refine ⟨?_, ?_, ?_, ?_⟩
  · cases hres : ensureTmdbIdForSeries lookupItems call.query with
    | mk lk r =>
      cases r with
      | fail e => simp [svcArrSeries, hres]
      | ok tmdb => simp [svcArrSeries, hres, hunset]
  · cases hres : ensureTmdbIdForMovie lookupItems call.query with
    | mk lk r =>
      cases r with
      | fail e => simp [svcArrMovie, hres]
      | ok tmdb => simp [svcArrMovie, hres, hunset]
  · intro lk tmdb hres
    simp [svcArrSeries, hres, hunset]
  · intro lk tmdb hres
    simp [svcArrMovie, hres, hunset]

/-- Witness for C5: a `tmdb:` query with no root or profile configured
fails with the not-configured error, without any HTTP call at all. -/
theorem claim5_arr_not_configured_witness :
    (svcArrSeries [] none none ⟨"tmdb:1396", none, none⟩ (fun _ _ _ => "resp")).addCalls = 0 ∧
    (svcArrSeries [] none none ⟨"tmdb:1396", none, none⟩ (fun _ _ _ => "resp")).outcome =
      .fail sonarrNotConfiguredMsg :=
  ⟨((claim5_arr_not_configured [] none none ⟨"tmdb:1396", none, none⟩
      (fun _ _ _ => "resp") (fun _ _ _ => "resp") (Or.inl rfl)).1).1,
    (claim5_arr_not_configured [] none none ⟨"tmdb:1396", none, none⟩
      (fun _ _ _ => "resp") (fun _ _ _ => "resp") (Or.inl rfl)).2.2.1 0 1396 (by decide)⟩

/-- Counterexample for C5 as stated: with the Sonarr root unset and a
query whose lookup returns nothing, the service call fails with the
lookup (not-found) error, not a not-configured error — and the lookup
HTTP call has been attempted. -/
theorem claim5_counterexample :
    svcArrSeries [] none none ⟨"breaking bad", none, none⟩ (fun _ _ _ => "resp") =
      ⟨1, 0, .fail "No Sonarr lookup results for 'breaking bad'"⟩ ∧
    ("No Sonarr lookup results for 'breaking bad'" : String) ≠ sonarrNotConfiguredMsg := by
  exact ⟨by decide, by decide⟩

/-! ## Season parsing (`services.py` `parse_seasons_input` lines 51-76 and
`__init__.py` `_parse_seasons` lines 380-408) -/

/-- Result of both season parsers: the literal string `"all"` or a list of
season numbers. -/
inductive SeasonsParsed where
  | allTok
  | nums (l : List Int)
deriving Repr, DecidableEq

/-- A Python value handed to a season parser: a list of ints, a string, or
some other value.  `otherVal` stands for the remaining Python values,
which neither claim exercises: `parse_seasons_input` sends them to its
`"all"` fallback and `_parse_seasons` raises on them when they are not
iterables of int-convertible items. -/
inductive PyInput where
  | intList (l : List Int)
  | str (s : String)
  | otherVal
deriving Repr, DecidableEq

/-- `re.findall(r"\d+", s)` over ASCII digits: the maximal digit runs in
order.  `run` holds the current run reversed. -/
def findallDigitsGo : List Char → List Char → List (List Char)
  | run, [] => if run = [] then [] else [run.reverse]
  | run, c :: rest =>
    if c.isDigit then findallDigitsGo (c :: run) rest
    else if run = [] then findallDigitsGo [] rest
    else run.reverse :: findallDigitsGo [] rest

def findallDigits (cs : List Char) : List (List Char) :=
  findallDigitsGo [] cs

/-- `parse_seasons_input` (`services.py` lines 51-76): a list of ints is
returned as-is; the string `"all"` (case-insensitive, no stripping) gives
the token; any other string yields its digit runs when it has any;
everything else falls back to `"all"`. -/
def parse_seasons_input : PyInput → SeasonsParsed
  | .intList l => .nums l
  | .str s =>
    if pyLower s = "all" then .allTok
    else
      let runs := findallDigits s.data
      if runs ≠ [] then .nums (runs.map (fun r => (digitsToNat r : Int)))
      else .allTok
  | .otherVal => .allTok

/-- JSON whitespace. -/
def isJsonWs (c : Char) : Bool :=
  c = ' ' || c = '\t' || c = '\n' || c = '\r'

def skipWs (cs : List Char) : List Char :=
  cs.dropWhile isJsonWs

/-- One JSON integer literal: optional minus sign, then digits. -/
def parseIntTok (cs : List Char) : Option (Int × List Char) :=
  match cs with
  | '-' :: rest =>
    let ds := rest.takeWhile Char.isDigit
    if ds = [] then none
    else some (-(digitsToNat ds : Int), rest.dropWhile Char.isDigit)
  | _ =>
    let ds := cs.takeWhile Char.isDigit
    if ds = [] then none
    else some ((digitsToNat ds : Int), cs.dropWhile Char.isDigit)

/-- Comma-separated integer items up to the closing bracket.  The fuel is
instantiated with the input length, which bounds the item count since
every item consumes at least one character. -/
def parseItems : Nat → List Char → Option (List Int)
  | 0, _ => none
  | fuel + 1, cs =>
    match parseIntTok (skipWs cs) with
    | none => none
    | some (n, rest) =>
      match skipWs rest with
      | ']' :: rest2 => if skipWs rest2 = [] then some [n] else none
      | ',' :: rest2 => (parseItems fuel rest2).map (fun l => n :: l)
      | _ => none

/-- A model of the `json.loads` call inside `_parse_seasons`, restricted
to what that function consumes: an integer scalar gives `[n]` and an array
of integers gives the list, exactly as the source wraps them.  JSON
booleans, floats, strings and nested structures are outside the modelled
domain and map to `none` (the csv fallback); for almost all of them the
source also reaches that fallback through a failed `json.loads` or a
failed `int()` inside the same `try`, the exception being float literals,
which no claim exercises. -/
def jsonSeasons (s : String) : Option (List Int) :=
  match skipWs s.data with
  | '[' :: rest =>
    match skipWs rest with
    | ']' :: rest2 => if skipWs rest2 = [] then some [] else none
    | rest' => parseItems s.data.length rest'
  | cs =>
    match parseIntTok cs with
    | some (n, rest) => if skipWs rest = [] then some [n] else none
    | none => none

/-- `s.split(",")` on characters; `cur` is the current piece reversed. -/
def splitCommaGo : List Char → List Char → List (List Char)
  | cur, [] => [cur.reverse]
  | cur, c :: rest =>
    if c = ',' then cur.reverse :: splitCommaGo [] rest
    else splitCommaGo (c :: cur) rest

def splitComma (cs : List Char) : List (List Char) :=
  splitCommaGo [] cs

/-- Python `p.strip()` on a character list. -/
def pyStripChars (cs : List Char) : List Char :=
  ((cs.dropWhile isPySpace).reverse.dropWhile isPySpace).reverse

/-- The csv fallback of `_parse_seasons` (lines 402-404): brackets
removed, split on commas, stripped, empties dropped; `[1]` when nothing is
left, otherwise `int()` of every part (whose failure propagates — it is
outside the `try`). -/
def csvSeasons (s : String) : Except String (List Int) :=
  let parts := ((splitComma (s.data.filter (fun c => decide (c ≠ '[' ∧ c ≠ ']')))).map
    pyStripChars).filter (fun p => decide (p ≠ []))
  if parts = [] then .ok [1]
  else parts.mapM (fun p =>
    match pyIntOfChars p with
    | some n => Except.ok n
    | none => Except.error "ValueError")

/-- `_parse_seasons` (`__init__.py` lines 380-408). -/
def parse_seasons : PyInput → Except String SeasonsParsed
  | .str s =>
    if pyLower (pyStrip s) = "all" then .ok .allTok
    else
      match jsonSeasons s with
      | some l => .ok (.nums l)
      | none => (csvSeasons s).map .nums
  | .intList l => .ok (.nums l)
  | .otherVal => .error "TypeError"

/-- C6 (`_parse_seasons` and `parse_seasons_input`): every letter-case
variant of `"all"` resolves to the `All` token in both parsers, and the
inputs `"1,2,5"`, `"[1,2,5]"` and `[1, 2, 5]` all resolve to the same
seasons `[1, 2, 5]` in both parsers. -/
theorem claim6_season_parsing :
    (parse_seasons_input (.str "all") = .allTok ∧
      parse_seasons_input (.str "alL") = .allTok ∧
      parse_seasons_input (.str "aLl") = .allTok ∧
      parse_seasons_input (.str "aLL") = .allTok ∧
      parse_seasons_input (.str "All") = .allTok ∧
      parse_seasons_input (.str "AlL") = .allTok ∧
      parse_seasons_input (.str "ALl") = .allTok ∧
      parse_seasons_input (.str "ALL") = .allTok) ∧
    (parse_seasons (.str "all") = .ok .allTok ∧
      parse_seasons (.str "alL") = .ok .allTok ∧
      parse_seasons (.str "aLl") = .ok .allTok ∧
      parse_seasons (.str "aLL") = .ok .allTok ∧
      parse_seasons (.str "All") = .ok .allTok ∧
      parse_seasons (.str "AlL") = .ok .allTok ∧
      parse_seasons (.str "ALl") = .ok .allTok ∧
      parse_seasons (.str "ALL") = .ok .allTok) ∧
    (parse_seasons_input (.str "1,2,5") = .nums [1, 2, 5] ∧
      parse_seasons_input (.str "[1,2,5]") = .nums [1, 2, 5] ∧
      parse_seasons_input (.intList [1, 2, 5]) = .nums [1, 2, 5]) ∧
    (parse_seasons (.str "1,2,5") = .ok (.nums [1, 2, 5]) ∧
      parse_seasons (.str "[1,2,5]") = .ok (.nums [1, 2, 5]) ∧
      parse_seasons (.intList [1, 2, 5]) = .ok (.nums [1, 2, 5])) :=
  ⟨⟨rfl, rfl, rfl, rfl, rfl, rfl, rfl, rfl⟩,
    ⟨rfl, rfl, rfl, rfl, rfl, rfl, rfl, rfl⟩,
    ⟨rfl, rfl, rfl⟩, ⟨rfl, rfl, rfl⟩⟩

/-! ## `SonarrClient.add_series` season flags (`api_common.py` lines
217-255 and the identical copy in `custom_components/overseerr/api_arr.py`
lines 78-116), and the seasons array of `handle_add_media` (`services.py`
lines 149-186)

The Sonarr lookup result is abstracted to the list of its season numbers;
the embedded functions build the `"seasons"` entry of the POSTed payload
as a list of `(seasonNumber, monitored)` pairs. -/

/-- The `seasons` argument accepted by `add_series` (and `request_media`):
a string or an iterable of ints; `Option` adds `None`. -/
inductive SeasonsArg where
  | strArg (s : String)
  | intsArg (l : List Int)
deriving Repr, DecidableEq

/-- `int(x)` over the characters of a string: iterating a Python string
yields its one-character strings, each of which must be a digit; the first
non-digit raises. -/
def charsToInts : List Char → Except String (List Int)
  | [] => .ok []
  | c :: rest =>
    if c.isDigit then
      (charsToInts rest).map (fun l => ((c.toNat - '0'.toNat : Nat) : Int) :: l)
    else .error "ValueError"

/-- `monitored_set` (`add_series` lines 230-234): every lookup season
number for the (stripped, case-folded) string `"all"`, the coerced
elements for any other truthy value, `None` otherwise. -/
def monitoredSet (seasons : Option SeasonsArg) (lookupSeasonNumbers : List Int) :
    Except String (Option (List Int)) :=
  match seasons with
  | none => .ok none
  | some (.strArg s) =>
    if pyLower (pyStrip s) = "all" then .ok (some lookupSeasonNumbers)
    else if s = "" then .ok none
    else (charsToInts s.data).map some
  | some (.intsArg l) => if l = [] then .ok none else .ok (some l)

/-- The `"seasons"` entry of the `add_series` payload (lines 240-246):
each lookup season keeps its number, monitored when `monitored_set` is
`None` or contains the number. -/
def addSeriesSeasonsArray (seasons : Option SeasonsArg)
    (lookupSeasonNumbers : List Int) : Except String (List (Int × Bool)) :=
  (monitoredSet seasons lookupSeasonNumbers).map (fun mset =>
    lookupSeasonNumbers.map (fun n =>
      (n, match mset with
          | none => true
          | some l => l.contains n)))

/-- Python `parsed_seasons == default_season` where the left side is a
list of ints or the string `"all"`: a list never equals a string. -/
def parsedEqStr (p : SeasonsParsed) (s : String) : Bool :=
  match p with
  | .allTok => decide ("all" = s)
  | .nums _ => false

/-- The monitored flag computed for one season by `handle_add_media`
(`services.py` lines 167-177).  The middle branch is kept although it can
never fire: it requires `parsed_seasons == "Season 1"`, and the parsed
value is a list or the string `"all"`. -/
def hamSeasonMonitored (parsed : SeasonsParsed) (defaultSeason : String)
    (sn : Int) : Bool :=
  if parsedEqStr parsed "all" then decide (sn ≠ 0)
  else if defaultSeason = "Season 1" ∧ parsedEqStr parsed defaultSeason = true then
    decide (sn = 1)
  else
    match parsed with
    | .nums l => l.contains sn
    | .allTok => false

/-- The `seasons_array` built by `handle_add_media` (lines 160-183). -/
def hamSeasonsArray (parsed : SeasonsParsed) (defaultSeason : String)
    (lookupSeasonNumbers : List Int) : List (Int × Bool) :=
  lookupSeasonNumbers.map (fun sn => (sn, hamSeasonMonitored parsed defaultSeason sn))

/-- C1, amended: the two Sonarr add paths disagree about specials.  In the
legacy `handle_add_media` (`services.py`), parsed seasons `"all"` monitor
every season except number 0; but in `SonarrClient.add_series`
(`api_common.py`, the path named by the claim), a seasons argument that
strips and folds to `"all"` puts **every** lookup season number — season 0
included — into `monitored_set`, so every season is posted with
`monitored=true`. -/
theorem claim1_add_series_all_seasons (defaultSeason : String)
    (lookupSeasonNumbers : List Int) (s : String)
    (hall : pyLower (pyStrip s) = "all") :
    hamSeasonsArray .allTok defaultSeason lookupSeasonNumbers =
      lookupSeasonNumbers.map (fun sn => (sn, decide (sn ≠ 0))) ∧
    addSeriesSeasonsArray (some (.strArg s)) lookupSeasonNumbers =
      .ok (lookupSeasonNumbers.map (fun n => (n, true))) := by
  constructor
  · simp [hamSeasonsArray, hamSeasonMonitored, parsedEqStr]
  · simp only [addSeriesSeasonsArray, monitoredSet, hall, if_pos, Except.map]
    congr 1
    apply List.map_congr_left
    intro n hn
    simp [hn]

/-- Witness for C1 (amended form) at the scenario of the claim: a lookup
reporting seasons 0, 1, 2 requested with seasons `"all"`. -/
theorem claim1_add_series_all_seasons_witness :
    hamSeasonsArray .allTok "All" [0, 1, 2] =
      ([0, 1, 2] : List Int).map (fun sn => (sn, decide (sn ≠ 0))) ∧
    addSeriesSeasonsArray (some (.strArg "all")) [0, 1, 2] =
      .ok (([0, 1, 2] : List Int).map (fun n => (n, true))) :=
  claim1_add_series_all_seasons "All" [0, 1, 2] "all" (by decide)

/-- Counterexample for C1 as stated: `SonarrClient.add_series` with
seasons `"all"` and a lookup whose season list includes season 0 posts
season 0 with `monitored=true`, not `monitored=false`. -/
theorem claim1_counterexample :
    addSeriesSeasonsArray (some (.strArg "all")) [0, 1, 2] =
      .ok [(0, true), (1, true), (2, true)] ∧
    ((0 : Int), false) ∉ [((0 : Int), true), (1, true), (2, true)] :=
  ⟨rfl, by decide⟩

/-! ## `OverseerrClient.request_media` seasons key (`api_common.py` lines
156-161 and `custom_components/overseerr/api_overseerr.py` lines 117-121) -/

/-- Value carried under the `"seasons"` key of the request payload. -/
inductive SeasonsFieldVal where
  | allLiteral
  | intList (l : List Int)
deriving Repr, DecidableEq

/-- The `"seasons"` entry attached by `request_media`: `none` means the
key is absent from the POSTed payload.  Lines 156-161: only for media
type `"tv"`; a string argument that strips and folds to `"all"` gives the
literal; any other truthy argument is coerced element-wise with `int`. -/
def requestMediaSeasonsField (media_type : String) (seasons : Option SeasonsArg) :
    Except String (Option SeasonsFieldVal) :=
  if media_type = "tv" then
    match seasons with
    | some (.strArg s) =>
      if pyLower (pyStrip s) = "all" then .ok (some .allLiteral)
      else if s = "" then .ok none
      else (charsToInts s.data).map (fun l => some (.intList l))
    | some (.intsArg l) => if l = [] then .ok none else .ok (some (.intList l))
    | none => .ok none
  else .ok none

theorem charsToInts_ok {cs : List Char} {l : List Int}
    (h : charsToInts cs = .ok l) :
    (∀ c ∈ cs, c.isDigit = true) ∧
    l = cs.map (fun c => ((c.toNat - '0'.toNat : Nat) : Int)) := by
  induction cs generalizing l with
  | nil =>
    simp only [charsToInts] at h
    cases h
    simp
  | cons c rest ih =>
    simp only [charsToInts] at h
    by_cases hd : c.isDigit
    · rw [if_pos hd] at h
      cases hrest : charsToInts rest with
      | error e => rw [hrest] at h; cases h
      | ok l' =>
        rw [hrest] at h
        cases h
        obtain ⟨h1, h2⟩ := ih hrest
        refine ⟨?_, by simp [h2]⟩
        intro x hx
        rcases List.mem_cons.mp hx with rfl | hx'
        · exact hd
        · exact h1 x hx'
    · rw [if_neg hd] at h
      cases h

/-- C10, amended (`request_media`): for TV an explicitly empty seasons
list produces no `"seasons"` key, exactly like passing no seasons at all;
for any non-`"tv"` media type the key is never attached; and the key is
attached only for a string that strips/case-folds to `"all"` (as the
literal `"all"`), for a non-empty collection of integers (as that list) —
or, beyond the claim's wording, for a non-empty all-digit string other
than `"all"`, which Python iterates character-wise into a list of digit
values. -/
theorem claim10_seasons_key (seasons : Option SeasonsArg) :
    (requestMediaSeasonsField "tv" (some (.intsArg [])) = .ok none ∧
      requestMediaSeasonsField "tv" none = .ok none) ∧
    (∀ mt, mt ≠ "tv" → requestMediaSeasonsField mt seasons = .ok none) ∧
    (∀ v, requestMediaSeasonsField "tv" seasons = .ok (some v) →
      (∃ s, seasons = some (.strArg s) ∧ pyLower (pyStrip s) = "all" ∧
        v = .allLiteral) ∨
      (∃ l, seasons = some (.intsArg l) ∧ l ≠ [] ∧ v = .intList l) ∨
      (∃ s, seasons = some (.strArg s) ∧ pyLower (pyStrip s) ≠ "all" ∧ s ≠ "" ∧
        (∀ c ∈ s.data, c.isDigit = true) ∧
        v = .intList (s.data.map (fun c => ((c.toNat - '0'.toNat : Nat) : Int))))) := by
  refine ⟨⟨rfl, rfl⟩, ?_, ?_⟩
  · intro mt hmt
    simp [requestMediaSeasonsField, hmt]
  · intro v hv
    cases seasons with
    | none => simp [requestMediaSeasonsField] at hv
    | some arg =>
      cases arg with
      | intsArg l =>
        refine Or.inr (Or.inl ⟨l, rfl, ?_, ?_⟩) <;>
          by_cases hl : l = [] <;>
          simp [requestMediaSeasonsField, hl] at hv <;> simp_all
      | strArg s =>
        by_cases hall : pyLower (pyStrip s) = "all"
        · refine Or.inl ⟨s, rfl, hall, ?_⟩
          simp [requestMediaSeasonsField, hall] at hv
          exact hv.symm
        · by_cases hemp : s = ""
          · subst hemp
            rw [show requestMediaSeasonsField "tv" (some (.strArg "")) = .ok none from rfl] at hv
            cases hv
          · refine Or.inr (Or.inr ⟨s, rfl, hall, hemp, ?_⟩)
            simp only [requestMediaSeasonsField, if_pos rfl, if_neg hall,
              if_neg hemp] at hv
            cases hci : charsToInts s.data with
            | error e => rw [hci] at hv; cases hv
            | ok l =>
              rw [hci] at hv
              cases hv
              obtain ⟨h1, h2⟩ := charsToInts_ok hci
              exact ⟨h1, by rw [h2]⟩

/-- Witness for C10: for a movie request, even a non-empty seasons list
attaches no `"seasons"` key. -/
theorem claim10_seasons_key_witness :
    requestMediaSeasonsField "movie" (some (.intsArg [1, 2, 5])) = .ok none :=
  (claim10_seasons_key (some (.intsArg [1, 2, 5]))).2.1 "movie" (by decide)

/-- Counterexample for C10 as stated: the digit string `"12"` — neither
the string `"all"` nor a collection of integers — also gets a `"seasons"`
key, holding the digit values `[1, 2]`. -/
theorem claim10_counterexample :
    requestMediaSeasonsField "tv" (some (.strArg "12")) =
      .ok (some (.intList [1, 2])) ∧
    pyLower (pyStrip "12") ≠ "all" :=
  ⟨rfl, by decide⟩

/-! ## Duplicate suppression (`services.py`,
`handle_add_overseerr_media` lines 215-234)

`_RECENT_REQUESTS` is an insertion-ordered map from `f"{title}:{media_type}"`
keys to the last-seen wall-clock time, modelled as an association list with
times in seconds as `Rat` (the code subtracts `datetime` values and takes
`total_seconds()`).  A call first checks the key: a hit younger than 10
seconds returns immediately — before the tracker update *and before the
cleanup*.  Otherwise the key is stamped with the current time and every
entry strictly older than 120 seconds is deleted, and the call proceeds to
the upstream request. -/

/-- First value stored under `k`. -/
def assocFind (m : List (String × Rat)) (k : String) : Option Rat :=
  match m with
  | [] => none
  | (k', v) :: rest => if k' = k then some v else assocFind rest k

/-- `m[k] = v`: replace in place, else append (Python dict order). -/
def assocSet (m : List (String × Rat)) (k : String) (v : Rat) :
    List (String × Rat) :=
  match m with
  | [] => [(k, v)]
  | (k', v') :: rest =>
    if k' = k then (k', v) :: rest else (k', v') :: assocSet rest k v

/-- One `handle_add_overseerr_media` pass through the duplicate gate:
the updated map and whether the call proceeds to the upstream request. -/
def dupGateStep (m : List (String × Rat)) (key : String) (now : Rat) :
    List (String × Rat) × Bool :=
  let proceed :=
    let m1 := assocSet m key now
    let m2 := m1.filter (fun e => !decide (e.2 < now - 120))
    (m2, true)
  match assocFind m key with
  | some last => if now - last < 10 then (m, false) else proceed
  | none => proceed

/-- A sequence of invocations `(key, time)` starting from an empty
tracker: the final map and the number of calls that reached the upstream
request. -/
def runDupGate (calls : List (String × Rat)) : List (String × Rat) × Nat :=
  calls.foldl
    (fun acc c =>
      ((dupGateStep acc.1 c.1 c.2).1,
        acc.2 + (if (dupGateStep acc.1 c.1 c.2).2 then 1 else 0)))
    ([], 0)

theorem dupGateStep_suppressed (m : List (String × Rat)) (key : String)
    (now last : Rat) (hfind : assocFind m key = some last)
    (hlt : now - last < 10) : dupGateStep m key now = (m, false) := by
  simp [dupGateStep, hfind, hlt]

theorem dupGateStep_proceed_of_stale (m : List (String × Rat)) (key : String)
    (now last : Rat) (hfind : assocFind m key = some last)
    (hlt : ¬ now - last < 10) :
    dupGateStep m key now =
      ((assocSet m key now).filter (fun e => !decide (e.2 < now - 120)), true) := by
  simp [dupGateStep, hfind, hlt]

theorem dupGateStep_proceed_of_none (m : List (String × Rat)) (key : String)
    (now : Rat) (hfind : assocFind m key = none) :
    dupGateStep m key now =
      ((assocSet m key now).filter (fun e => !decide (e.2 < now - 120)), true) := by
  simp [dupGateStep, hfind]

/-- C8, amended (`handle_add_overseerr_media`): two invocations of the
same `(title, media_type)` key strictly less than 10 seconds apart make
exactly one upstream call, and 11 seconds apart make two; entries strictly
older than 2 minutes are pruned on each invocation **that passes the
duplicate check** — a suppressed duplicate returns before the pruning
loop, leaving stale entries in place. -/
theorem claim8_duplicate_suppression :
    (∀ (key : String) (t1 t2 : Rat), t2 - t1 < 10 →
      (runDupGate [(key, t1), (key, t2)]).2 = 1) ∧
    (∀ (key : String) (t1 : Rat),
      (runDupGate [(key, t1), (key, t1 + 11)]).2 = 2) ∧
    (∀ (m : List (String × Rat)) (key : String) (now : Rat)
        (m' : List (String × Rat)),
      dupGateStep m key now = (m', true) → ∀ e ∈ m', ¬ e.2 < now - 120) := by
  refine ⟨?_, ?_, ?_⟩
  · intro key t1 t2 hlt
    have ha : ¬ (t1 < t1 - 120) := by linarith
    simp [runDupGate, dupGateStep, assocFind, assocSet, ha, hlt]
  · intro key t1
    have ha : ¬ (t1 < t1 - 120) := by linarith
    have hb : ¬ ((11 : Rat) < 10) := by norm_num
    have hc : ¬ (t1 < t1 + 11 - 120) := by linarith
    have hd : ¬ (t1 + 11 < t1 + 11 - 120) := by linarith
    simp [runDupGate, dupGateStep, assocFind, assocSet, ha, hb, hc, hd]
  · intro m key now m' hstep e he
    have hmem : e ∈ (assocSet m key now).filter (fun e => !decide (e.2 < now - 120)) := by
      cases hfind : assocFind m key with
      | none =>
        rw [dupGateStep_proceed_of_none m key now hfind] at hstep
        injection hstep with h1 _
        rw [← h1] at he
        exact he
      | some last =>
        by_cases hlt : now - last < 10
        · rw [dupGateStep_suppressed m key now last hfind hlt] at hstep
          exact absurd (congrArg Prod.snd hstep) (by simp)
        · rw [dupGateStep_proceed_of_stale m key now last hfind hlt] at hstep
          injection hstep with h1 _
          rw [← h1] at he
          exact he
    have := (List.mem_filter.mp hmem).2
    simpa using this

/-- Witness for C8: two invocations of the same key 5 seconds apart make
exactly one upstream call. -/
theorem claim8_duplicate_suppression_witness :
    (runDupGate [("dune:movie", 0), ("dune:movie", 5)]).2 = 1 :=
  claim8_duplicate_suppression.1 "dune:movie" 0 5 (by norm_num)

/-- Counterexample for C8 as stated: key `B` is stamped at `t = 0`, key
`A` at `t = 115`, and `A` again at `t = 122`.  The third invocation is
suppressed as a duplicate and returns before the cleanup, so after that
invocation the tracker still holds `B` — an entry 122 seconds (older than
2 minutes) old. -/
theorem claim8_counterexample :
    ("B", (0 : Rat)) ∈ (runDupGate [("B", 0), ("A", 115), ("A", 122)]).1 ∧
    (0 : Rat) < 122 - 120 := by
  have h1 : ¬ ((0 : Rat) < 0 - 120) := by norm_num
  have h2 : ¬ ((115 : Rat) - 0 < 10) := by norm_num
  have h3 : ¬ ((0 : Rat) < 115 - 120) := by norm_num
  have h4 : ¬ ((115 : Rat) < 115 - 120) := by norm_num
  have h5 : (122 : Rat) - 115 < 10 := by norm_num
  constructor
  · simp [runDupGate, dupGateStep, assocFind, assocSet, h1, h2, h3, h4, h5]
  · norm_num

/-! ## `OverseerrClient.search` body tolerance (`api_common.py` lines
94-102 and `custom_components/overseerr/api_overseerr.py` lines 55-62) -/

/-- A Python value as decoded from the HTTP response by the client core:
`None`, a bool, a number, a string, a list or a dict. -/
inductive PyVal where
  | pynone
  | pybool (b : Bool)
  | pyint (n : Int)
  | pystr (s : String)
  | pylist (l : List PyVal)
  | pydict (entries : List (String × PyVal))

/-- Python truthiness of a decoded value: `None`, `False`, `0`, `""`,
`[]` and an empty dict are falsy. -/
def pyTruthy : PyVal → Bool
  | .pynone => false
  | .pybool b => b
  | .pyint n => decide (n ≠ 0)
  | .pystr s => decide (s ≠ "")
  | .pylist [] => false
  | .pylist (_ :: _) => true
  | .pydict [] => false
  | .pydict (_ :: _) => true

/-- `j.get(key)` on the modelled dict. -/
def dictGet : List (String × PyVal) → String → Option PyVal
  | [], _ => none
  | (k, v) :: rest, key => if k = key then some v else dictGet rest key

/-- The body-shape tolerance of `search` (lines 98-102): a dict holding a
`"results"` key gives `j.get("results") or []`; a bare list is returned
unchanged; anything else gives `[]`. -/
def searchExtract (j : PyVal) : PyVal :=
  match j with
  | .pydict entries =>
    match dictGet entries "results" with
    | some v => if pyTruthy v then v else .pylist []
    | none => .pylist []
  | .pylist l => .pylist l
  | _ => .pylist []

/-- Is the value a Python list? -/
def isPyList : PyVal → Bool
  | .pylist _ => true
  | _ => false

/-- C9, amended (`search`): the extraction never raises (it is a total
function of the body) and behaves per shape — a dict whose `"results"`
field is a list yields exactly that list, a null (or otherwise falsy)
`"results"` field yields the empty list, a bare list body is returned
unchanged, and any other body shape yields the empty list; the result is
always a list **except** when the dict's `"results"` field is a truthy
non-list value, which is returned as-is. -/
theorem claim9_search_shape (j : PyVal) :
    (∀ entries l, j = .pydict entries → dictGet entries "results" = some (.pylist l) →
      searchExtract j = .pylist l) ∧
    (∀ entries v, j = .pydict entries → dictGet entries "results" = some v →
      pyTruthy v = false → searchExtract j = .pylist []) ∧
    (∀ l, j = .pylist l → searchExtract j = .pylist l) ∧
    ((∀ entries, j ≠ .pydict entries) → (∀ l, j ≠ .pylist l) →
      searchExtract j = .pylist []) ∧
    (isPyList (searchExtract j) = false →
      ∃ entries v, j = .pydict entries ∧ dictGet entries "results" = some v ∧
        pyTruthy v = true ∧ isPyList v = false) := by
  refine ⟨?_, ?_, ?_, ?_, ?_⟩
  · rintro entries l rfl hget
    cases l with
    | nil => simp [searchExtract, hget, pyTruthy]
    | cons x xs => simp [searchExtract, hget, pyTruthy]
  · rintro entries v rfl hget hfalse
    simp [searchExtract, hget, hfalse]
  · rintro l rfl
    rfl
  · intro hnd hnl
    cases j with
    | pydict entries => exact absurd rfl (hnd entries)
    | pylist l => exact absurd rfl (hnl l)
    | pynone => rfl
    | pybool b => rfl
    | pyint n => rfl
    | pystr s => rfl
  · intro hnotlist
    cases j with
    | pydict entries =>
      cases hget : dictGet entries "results" with
      | none => simp [searchExtract, hget, isPyList] at hnotlist
      | some v =>
        cases htruthy : pyTruthy v with
        | false => simp [searchExtract, hget, htruthy, isPyList] at hnotlist
        | true =>
          refine ⟨entries, v, rfl, hget, htruthy, ?_⟩
          simpa [searchExtract, hget, htruthy] using hnotlist
    | pylist l => simp [searchExtract, isPyList] at hnotlist
    | pynone => simp [searchExtract, isPyList] at hnotlist
    | pybool b => simp [searchExtract, isPyList] at hnotlist
    | pyint n => simp [searchExtract, isPyList] at hnotlist
    | pystr s => simp [searchExtract, isPyList] at hnotlist

/-- Witness for C9: a dict body with a list under `"results"` yields that
list. -/
theorem claim9_search_shape_witness :
    searchExtract (.pydict [("results", .pylist [.pyint 1])]) =
      .pylist [.pyint 1] :=
  (claim9_search_shape (.pydict [("results", .pylist [.pyint 1])])).1
    [("results", .pylist [.pyint 1])] [.pyint 1] rfl rfl

/-- Counterexample for C9 as stated: a dict body whose `"results"` field
is the number 5 makes `search` return the number 5 — not a list. -/
theorem claim9_counterexample :
    searchExtract (.pydict [("results", .pyint 5)]) = .pyint 5 ∧
    isPyList (.pyint 5) = false :=
  ⟨rfl, rfl⟩

end Hassarr
